import Mathlib

/-!
Verification of the configuration resolver in
`LLM_ACP_EN/p2_Build LLM Q&A System/config/load_key.py`.

The resolver (`load_key`) merges a persisted JSON store with interactive
prompts, derives region endpoints from a yes/no answer, writes the merged
map back, and publishes the three values into the process environment.
`display_config_summary` renders a masked summary of the published state.

The embedding is pure: ambient effects (store contents, prompt answers,
write failures, availability of the dashscope library) become explicit
parameters, and all observable effects (prompts issued, store written,
environment published, dashscope fields set, warnings emitted) are
collected in a result record.  The region prompt loop, which blocks until
a recognized answer arrives, is modelled over a finite list of input
attempts; exhausting the list without a recognized answer corresponds to
the real loop still blocking, encoded as `none`.

The read of the store is modelled at two levels.  `StoreState` covers
the non-raising outcomes of step 1 (absent file, caught
`json.JSONDecodeError`, parsed object) over which `loadKey` runs.
`FileState` additionally distinguishes the read paths that the
`except json.JSONDecodeError` clause does not cover — an unopenable
file (`OSError`), bytes that are not valid UTF-8
(`UnicodeDecodeError`), and a valid JSON document that is not an object
(`AttributeError` at the first `config_data.get`) — and
`loadKeyChecked` over it returns the escaping exception on those paths.
-/

/-- Keys used for environment variables and in the JSON file
(constants `API_KEY_KEY`, `OPENAI_COMPAT_URL_KEY`, `SDK_URL_KEY`). -/
def API_KEY_KEY : String := "DASHSCOPE_API_KEY"

/-- Key for the OpenAI-compatibility-mode URL. -/
def OPENAI_COMPAT_URL_KEY : String := "DASHSCOPE_API_BASE"

/-- Key for the native DashScope SDK URL. -/
def SDK_URL_KEY : String := "DASHSCOPE_BASE_HTTP_API_URL"

/-- Python `str.strip()` with no argument: remove leading and trailing
whitespace characters. -/
def pyStrip (s : String) : String :=
  ⟨((s.data.dropWhile Char.isWhitespace).reverse.dropWhile Char.isWhitespace).reverse⟩

/-- Python `str.lower()`: lowercase every character. -/
def pyLower (s : String) : String := ⟨s.data.map Char.toLower⟩

/-- Whether the second list is a prefix of the first. -/
def startsWithSeq : List Char → List Char → Bool
  | _, [] => true
  | [], _ :: _ => false
  | c :: cs, d :: ds => c == d && startsWithSeq cs ds

/-- Whether the second list occurs as a contiguous subsequence of the
first. -/
def containsSeq : List Char → List Char → Bool
  | [], ds => ds.isEmpty
  | c :: cs, ds => startsWithSeq (c :: cs) ds || containsSeq cs ds

/-- Python `needle in hay` for strings: substring containment. -/
def containsStr (hay needle : String) : Bool := containsSeq hay.data needle.data

/-- The JSON object read from `Key.json`, as an association list of
string keys to string values (insertion-ordered, like a Python dict). -/
abbrev ConfigMap := List (String × String)

/-- Python `config_data.get(k)`: the value at the first occurrence of
key `k`, or `none` when absent. -/
def getVal : ConfigMap → String → Option String
  | [], _ => none
  | (k1, v) :: rest, k => if k1 = k then some v else getVal rest k

/-- Python `config_data[k] = v`: replace the value at an existing key in
place, otherwise append the pair at the end. -/
def setVal : ConfigMap → String → String → ConfigMap
  | [], k, v => [(k, v)]
  | (k1, v1) :: rest, k, v =>
      if k1 = k then (k, v) :: rest else (k1, v1) :: setVal rest k v

/-- Python `k in config_data`: key membership, regardless of the value. -/
def hasKey (m : ConfigMap) (k : String) : Bool := (getVal m k).isSome

/-- Python `not config_data.get(k)` restricted to string values: the key
is absent or its value is the empty string. -/
def blankVal (m : ConfigMap) (k : String) : Bool :=
  (getVal m k).getD "" == ""

/-- Outcome of the guarded step-1 read of `Key.json` along its
non-raising paths: the file was absent, the caught
`json.JSONDecodeError` fired (`malformed`), or a JSON object was
parsed.  The read paths that raise out of `load_key` (an unopenable
file, non-UTF-8 bytes, a valid-JSON non-object document) are
distinguished by `FileState` below and are not representable here. -/
inductive StoreState where
  | absent : StoreState
  | malformed : StoreState
  | parsed : ConfigMap → StoreState
deriving DecidableEq, Repr

/-- Step 1 of `load_key`: the map read from the store; a missing file or
a `json.JSONDecodeError` both leave `config_data = {}`. -/
def initialConfig : StoreState → ConfigMap
  | .absent => []
  | .malformed => []
  | .parsed m => m

/-- Whether step 1 printed the corrupted-config warning. -/
def corruptWarning : StoreState → Bool
  | .malformed => true
  | _ => false

/-- The two accepted answers of `_prompt_for_environment`. -/
inductive EnvChoice where
  | intl : EnvChoice
  | cn : EnvChoice
deriving DecidableEq, Repr

/-- The OpenAI-compatible endpoint literal assigned for a region. -/
def compatUrlFor : EnvChoice → String
  | .intl => "https://dashscope-intl.aliyuncs.com/compatible-mode/v1"
  | .cn => "https://dashscope.aliyuncs.com/compatible-mode/v1"

/-- The native-SDK endpoint literal assigned for a region. -/
def sdkUrlFor : EnvChoice → String
  | .intl => "https://dashscope-intl.aliyuncs.com/api/v1"
  | .cn => "https://dashscope.aliyuncs.com/api/v1"

/-- `_prompt_for_environment` over the finite list of input attempts the
user will type: each attempt is stripped and lowercased; `y`/`yes`
returns `intl`, `n`/`no` returns `cn`, anything else prints the
invalid-input message and loops.  The result carries the choice together
with the number of rejected attempts before it; `none` means every
attempt was rejected and the real loop is still blocking. -/
def promptForEnvironment : List String → Option (EnvChoice × Nat)
  | [] => none
  | r :: rest =>
      let response := pyLower (pyStrip r)
      if response = "y" ∨ response = "yes" then some (.intl, 0)
      else if response = "n" ∨ response = "no" then some (.cn, 0)
      else (promptForEnvironment rest).map (fun p => (p.1, p.2 + 1))

/-- Outcome of the API-key block of step 2: the updated map, whether
`config_changed` was set, and whether the getpass prompt was shown. -/
structure KeyStep where
  config : ConfigMap
  changed : Bool
  prompted : Bool
deriving DecidableEq, Repr

/-- The API-key block of step 2 of `load_key`: prompt via `getpass` when
the stored key is absent or empty; store the stripped reply when it is
non-empty, otherwise leave the map untouched. -/
def stepApiKey (m : ConfigMap) (input : String) : KeyStep :=
  if blankVal m API_KEY_KEY then
    let api_key := pyStrip input
    if api_key = "" then ⟨m, false, true⟩
    else ⟨setVal m API_KEY_KEY api_key, true, true⟩
  else ⟨m, false, false⟩

/-- The endpoint-pair condition of step 2: either URL absent or empty. -/
def needRegion (m : ConfigMap) : Bool :=
  blankVal m OPENAI_COMPAT_URL_KEY || blankVal m SDK_URL_KEY

/-- The endpoint assignment of step 2: both URLs are overwritten from
the single region choice. -/
def applyRegion (m : ConfigMap) (c : EnvChoice) : ConfigMap :=
  setVal (setVal m OPENAI_COMPAT_URL_KEY (compatUrlFor c)) SDK_URL_KEY (sdkUrlFor c)

/-- Everything observable about one `load_key` call. -/
structure LoadKeyResult where
  /-- `config_data` at the end of the call. -/
  finalConfig : ConfigMap
  /-- whether the corrupted-config warning of step 1 was printed. -/
  warnedCorrupt : Bool
  /-- whether the getpass API-key prompt was shown. -/
  promptedKey : Bool
  /-- whether `_prompt_for_environment` was entered. -/
  promptedRegion : Bool
  /-- how many region answers were rejected before one was accepted. -/
  regionRejections : Nat
  /-- whether step 3 attempted to write `Key.json` (`config_changed`). -/
  attemptedWrite : Bool
  /-- the map written to `Key.json`, or `none` when no write happened
  (not attempted, or the attempt failed with `IOError`). -/
  written : Option ConfigMap
  /-- the triple published to `os.environ` in step 4
  (API key, compatible URL, native SDK URL), or `none` when skipped. -/
  publishedEnv : Option (String × String × String)
  /-- the `(dashscope.api_key, dashscope.api_base)` pair set in step 4,
  or `none` when the library is absent or publication was skipped. -/
  dashscopeCfg : Option (String × String)
  /-- whether the incomplete-configuration warning was printed. -/
  warnedIncomplete : Bool
deriving DecidableEq, Repr

/-- The value `config_data[k]` under the guarantee that `k` is present. -/
def valOf (m : ConfigMap) (k : String) : String := (getVal m k).getD ""

/-- Step 4 of `load_key`: publish to `os.environ` (and configure the
dashscope library when it imported) exactly when all three keys are
members of `config_data`; otherwise print the degradation warning.
Returns (published triple, dashscope pair, warned). -/
def publishStep (m : ConfigMap) (dashscopeAvailable : Bool) :
    Option (String × String × String) × Option (String × String) × Bool :=
  if hasKey m API_KEY_KEY && hasKey m OPENAI_COMPAT_URL_KEY && hasKey m SDK_URL_KEY then
    (some (valOf m API_KEY_KEY, valOf m OPENAI_COMPAT_URL_KEY, valOf m SDK_URL_KEY),
     if dashscopeAvailable then some (valOf m API_KEY_KEY, valOf m SDK_URL_KEY) else none,
     false)
  else (none, none, true)

/-- Steps 3 and 4 of `load_key`, shared by both branches of step 2. -/
def finishLoad (store : StoreState) (ks : KeyStep) (config2 : ConfigMap)
    (promptedRegion : Bool) (rej : Nat) (changed : Bool)
    (writeFails dashscopeAvailable : Bool) : LoadKeyResult :=
  let pub := publishStep config2 dashscopeAvailable
  { finalConfig := config2
  , warnedCorrupt := corruptWarning store
  , promptedKey := ks.prompted
  , promptedRegion := promptedRegion
  , regionRejections := rej
  , attemptedWrite := changed
  , written := if changed && !writeFails then some config2 else none
  , publishedEnv := pub.1
  , dashscopeCfg := pub.2.1
  , warnedIncomplete := pub.2.2 }

/-- `load_key` as a pure function of the ambient world: the store state,
the reply the user would give to the getpass prompt, the successive
replies to the region prompt, whether the step-3 write raises `IOError`,
and whether `import dashscope` succeeded.  `none` models the call
blocking forever inside `_prompt_for_environment`. -/
def loadKey (store : StoreState) (apiKeyInput : String)
    (regionInputs : List String) (writeFails dashscopeAvailable : Bool) :
    Option LoadKeyResult :=
  let config0 := initialConfig store
  let ks := stepApiKey config0 apiKeyInput
  if needRegion ks.config then
    match promptForEnvironment regionInputs with
    | none => none
    | some (c, rej) =>
        some (finishLoad store ks (applyRegion ks.config c) true rej true
          writeFails dashscopeAvailable)
  else
    some (finishLoad store ks ks.config false 0 ks.changed
      writeFails dashscopeAvailable)

/-- The environment-name inference of `display_config_summary`, applied
to `os.environ.get(OPENAI_COMPAT_URL_KEY, 'Not Set')`. -/
def envNameOf (compatEnv : Option String) : String :=
  let openai_compat_url := compatEnv.getD "Not Set"
  if containsStr openai_compat_url "intl" then "International"
  else if containsStr openai_compat_url "aliyuncs.com" then "Mainland China"
  else "Unknown"

/-- The API-key masking of `display_config_summary`, applied to
`os.environ.get(API_KEY_KEY, 'Not Set')`: keys longer than 8 characters
show the first 4 and last 4 joined by an ellipsis, otherwise the
placeholder `Valid`, or `Not Set` when the variable is unset. -/
def maskKey (apiKeyEnv : Option String) : String :=
  let api_key := apiKeyEnv.getD "Not Set"
  if api_key.length > 8 ∧ api_key ≠ "Not Set" then
    api_key.take 4 ++ "..." ++ api_key.takeRight 4
  else
    if api_key ≠ "Not Set" then "Valid" else "Not Set"

/-- The Python exception classes that can escape `load_key` while it
reads the store: `OSError` when `open` fails on an existing file,
`UnicodeDecodeError` when the file bytes are not valid UTF-8 (like
`json.JSONDecodeError` it is a subclass of `ValueError`, but not of
`JSONDecodeError`, so the `except json.JSONDecodeError` clause does not
catch it), and `AttributeError` when the parsed document is not a JSON
object and the first `config_data.get` call is made on it. -/
inductive PyExc where
  | osError : PyExc
  | unicodeDecodeError : PyExc
  | attributeError : PyExc
deriving DecidableEq, Repr

/-- The condition of the `Key.json` file on disk when `load_key`
starts, distinguishing every read path of step 1: absent; present but
unopenable; present with bytes that are not valid UTF-8; present with
UTF-8 text that is not valid JSON; present with valid JSON that is not
an object; present with a JSON object.  `StoreState` covers only the
non-raising outcomes (absent, the caught decode error, a parsed
object). -/
inductive FileState where
  | absent : FileState
  | unreadable : FileState
  | notUtf8 : FileState
  | notJson : FileState
  | jsonNonObject : FileState
  | jsonObject : ConfigMap → FileState
deriving DecidableEq, Repr

/-- `load_key` over the full file-state model.  The step-1 read is
guarded by `except json.JSONDecodeError` only, so on an unopenable file
the `open` call raises `OSError` and on non-UTF-8 bytes `json.load`
raises `UnicodeDecodeError`, both propagating out of the call; a parsed
non-object document survives step 1 but raises `AttributeError` at the
first `config_data.get` of step 2.  The remaining file states reduce to
`StoreState` and never raise. -/
def loadKeyChecked (fs : FileState) (apiKeyInput : String)
    (regionInputs : List String) (writeFails dashscopeAvailable : Bool) :
    Except PyExc (Option LoadKeyResult) :=
  match fs with
  | .absent =>
      .ok (loadKey .absent apiKeyInput regionInputs writeFails dashscopeAvailable)
  | .unreadable => .error .osError
  | .notUtf8 => .error .unicodeDecodeError
  | .notJson =>
      .ok (loadKey .malformed apiKeyInput regionInputs writeFails dashscopeAvailable)
  | .jsonNonObject => .error .attributeError
  | .jsonObject m =>
      .ok (loadKey (.parsed m) apiKeyInput regionInputs writeFails dashscopeAvailable)

example : promptForEnvironment ["maybe", "YES"] = some (.intl, 1) := by decide

example : maskKey (some "abcdefghij") = "abcd...ghij" := by decide

example : envNameOf (some (compatUrlFor .intl)) = "International" := by decide

example : envNameOf (some (compatUrlFor .cn)) = "Mainland China" := by decide

example :
    loadKey (.parsed [(API_KEY_KEY, "sk-x")]) "" ["maybe", "YES"] false false =
    some { finalConfig := [(API_KEY_KEY, "sk-x"),
             (OPENAI_COMPAT_URL_KEY, compatUrlFor .intl),
             (SDK_URL_KEY, sdkUrlFor .intl)]
         , warnedCorrupt := false
         , promptedKey := false
         , promptedRegion := true
         , regionRejections := 1
         , attemptedWrite := true
         , written := some [(API_KEY_KEY, "sk-x"),
             (OPENAI_COMPAT_URL_KEY, compatUrlFor .intl),
             (SDK_URL_KEY, sdkUrlFor .intl)]
         , publishedEnv := some ("sk-x", compatUrlFor .intl, sdkUrlFor .intl)
         , dashscopeCfg := none
         , warnedIncomplete := false } := by decide

theorem getVal_setVal_same (m : ConfigMap) (k v : String) :
    getVal (setVal m k v) k = some v := by
  induction m with
  | nil => simp [setVal, getVal]
  | cons p rest ih =>
      obtain ⟨k1, v1⟩ := p
      by_cases h : k1 = k
      · simp [setVal, h, getVal]
      · simp [setVal, h, getVal, ih]

theorem getVal_setVal_ne (m : ConfigMap) (k v k2 : String) (h : k2 ≠ k) :
    getVal (setVal m k v) k2 = getVal m k2 := by
  induction m with
  | nil => simp [setVal, getVal, Ne.symm h]
  | cons p rest ih =>
      obtain ⟨k1, v1⟩ := p
      by_cases h1 : k1 = k
      · simp [setVal, h1, getVal, Ne.symm h]
      · simp [setVal, h1, getVal, ih]

theorem getVal_applyRegion_compat (m : ConfigMap) (c : EnvChoice) :
    getVal (applyRegion m c) OPENAI_COMPAT_URL_KEY = some (compatUrlFor c) := by
  unfold applyRegion
  rw [getVal_setVal_ne _ _ _ _ (by decide), getVal_setVal_same]

theorem getVal_applyRegion_sdk (m : ConfigMap) (c : EnvChoice) :
    getVal (applyRegion m c) SDK_URL_KEY = some (sdkUrlFor c) := by
  unfold applyRegion
  rw [getVal_setVal_same]

theorem getVal_applyRegion_other (m : ConfigMap) (c : EnvChoice) (k : String)
    (h1 : k ≠ OPENAI_COMPAT_URL_KEY) (h2 : k ≠ SDK_URL_KEY) :
    getVal (applyRegion m c) k = getVal m k := by
  unfold applyRegion
  rw [getVal_setVal_ne _ _ _ _ h2, getVal_setVal_ne _ _ _ _ h1]

theorem stepApiKey_config_other (m : ConfigMap) (input k : String)
    (h : k ≠ API_KEY_KEY) :
    getVal (stepApiKey m input).config k = getVal m k := by
  unfold stepApiKey
  by_cases hb : blankVal m API_KEY_KEY
  · by_cases he : pyStrip input = ""
    · simp [hb, he]
    · simp [hb, he, getVal_setVal_ne m API_KEY_KEY (pyStrip input) k h]
  · simp [hb]

/-- C1: for a store mapping all three keys to non-empty values,
`load_key` performs no prompting and no write, and publishes exactly the
three stored values unchanged into the environment. -/
theorem load_key_complete_store_reads_only
    (m : ConfigMap) (a : String) (rIns : List String) (wf ds : Bool)
    (v1 v2 v3 : String)
    (h1 : getVal m API_KEY_KEY = some v1) (h1n : v1 ≠ "")
    (h2 : getVal m OPENAI_COMPAT_URL_KEY = some v2) (h2n : v2 ≠ "")
    (h3 : getVal m SDK_URL_KEY = some v3) (h3n : v3 ≠ "") :
    loadKey (.parsed m) a rIns wf ds = some
      { finalConfig := m
      , warnedCorrupt := false
      , promptedKey := false
      , promptedRegion := false
      , regionRejections := 0
      , attemptedWrite := false
      , written := none
      , publishedEnv := some (v1, v2, v3)
      , dashscopeCfg := if ds then some (v1, v3) else none
      , warnedIncomplete := false } := by
  have hb1 : blankVal m API_KEY_KEY = false := by simp [blankVal, h1, h1n]
  have hb2 : blankVal m OPENAI_COMPAT_URL_KEY = false := by simp [blankVal, h2, h2n]
  have hb3 : blankVal m SDK_URL_KEY = false := by simp [blankVal, h3, h3n]
  have hstep : stepApiKey m a = ⟨m, false, false⟩ := by simp [stepApiKey, hb1]
  have hneed : needRegion m = false := by simp [needRegion, hb2, hb3]
  simp [loadKey, initialConfig, hstep, hneed, finishLoad, publishStep, hasKey,
    h1, h2, h3, valOf, corruptWarning]

/-- Witness for C1 at a concrete three-key store. -/
theorem load_key_complete_store_reads_only_witness :
    loadKey (.parsed [(API_KEY_KEY, "sk-test1234"),
        (OPENAI_COMPAT_URL_KEY, "https://dashscope.aliyuncs.com/compatible-mode/v1"),
        (SDK_URL_KEY, "https://dashscope.aliyuncs.com/api/v1")])
      "ignored" [] false true = some
      { finalConfig := [(API_KEY_KEY, "sk-test1234"),
          (OPENAI_COMPAT_URL_KEY, "https://dashscope.aliyuncs.com/compatible-mode/v1"),
          (SDK_URL_KEY, "https://dashscope.aliyuncs.com/api/v1")]
      , warnedCorrupt := false
      , promptedKey := false
      , promptedRegion := false
      , regionRejections := 0
      , attemptedWrite := false
      , written := none
      , publishedEnv := some ("sk-test1234",
          "https://dashscope.aliyuncs.com/compatible-mode/v1",
          "https://dashscope.aliyuncs.com/api/v1")
      , dashscopeCfg := if true then some ("sk-test1234",
          "https://dashscope.aliyuncs.com/api/v1") else none
      , warnedIncomplete := false } :=
  load_key_complete_store_reads_only _ "ignored" [] false true
    "sk-test1234" "https://dashscope.aliyuncs.com/compatible-mode/v1"
    "https://dashscope.aliyuncs.com/api/v1"
    (by decide) (by decide) (by decide) (by decide) (by decide) (by decide)

theorem finishLoad_finalConfig (store : StoreState) (ks : KeyStep)
    (cfg : ConfigMap) (pr : Bool) (rej : Nat) (ch wf ds : Bool) :
    (finishLoad store ks cfg pr rej ch wf ds).finalConfig = cfg := rfl

theorem finishLoad_promptedRegion (store : StoreState) (ks : KeyStep)
    (cfg : ConfigMap) (pr : Bool) (rej : Nat) (ch wf ds : Bool) :
    (finishLoad store ks cfg pr rej ch wf ds).promptedRegion = pr := rfl

theorem finishLoad_promptedKey (store : StoreState) (ks : KeyStep)
    (cfg : ConfigMap) (pr : Bool) (rej : Nat) (ch wf ds : Bool) :
    (finishLoad store ks cfg pr rej ch wf ds).promptedKey = ks.prompted := rfl

theorem finishLoad_regionRejections (store : StoreState) (ks : KeyStep)
    (cfg : ConfigMap) (pr : Bool) (rej : Nat) (ch wf ds : Bool) :
    (finishLoad store ks cfg pr rej ch wf ds).regionRejections = rej := rfl

theorem finishLoad_attemptedWrite (store : StoreState) (ks : KeyStep)
    (cfg : ConfigMap) (pr : Bool) (rej : Nat) (ch wf ds : Bool) :
    (finishLoad store ks cfg pr rej ch wf ds).attemptedWrite = ch := rfl

theorem finishLoad_written (store : StoreState) (ks : KeyStep)
    (cfg : ConfigMap) (pr : Bool) (rej : Nat) (ch wf ds : Bool) :
    (finishLoad store ks cfg pr rej ch wf ds).written =
      (if ch && !wf then some cfg else none) := rfl

theorem finishLoad_warnedCorrupt (store : StoreState) (ks : KeyStep)
    (cfg : ConfigMap) (pr : Bool) (rej : Nat) (ch wf ds : Bool) :
    (finishLoad store ks cfg pr rej ch wf ds).warnedCorrupt = corruptWarning store := rfl

theorem finishLoad_publishedEnv (store : StoreState) (ks : KeyStep)
    (cfg : ConfigMap) (pr : Bool) (rej : Nat) (ch wf ds : Bool) :
    (finishLoad store ks cfg pr rej ch wf ds).publishedEnv = (publishStep cfg ds).1 := rfl

theorem finishLoad_dashscopeCfg (store : StoreState) (ks : KeyStep)
    (cfg : ConfigMap) (pr : Bool) (rej : Nat) (ch wf ds : Bool) :
    (finishLoad store ks cfg pr rej ch wf ds).dashscopeCfg = (publishStep cfg ds).2.1 := rfl

theorem finishLoad_warnedIncomplete (store : StoreState) (ks : KeyStep)
    (cfg : ConfigMap) (pr : Bool) (rej : Nat) (ch wf ds : Bool) :
    (finishLoad store ks cfg pr rej ch wf ds).warnedIncomplete = (publishStep cfg ds).2.2 := rfl

theorem loadKey_inv (store : StoreState) (a : String) (rIns : List String)
    (wf ds : Bool) (res : LoadKeyResult)
    (h : loadKey store a rIns wf ds = some res) :
    (needRegion (stepApiKey (initialConfig store) a).config = true ∧
       ∃ c rej, promptForEnvironment rIns = some (c, rej) ∧
         res = finishLoad store (stepApiKey (initialConfig store) a)
                 (applyRegion (stepApiKey (initialConfig store) a).config c)
                 true rej true wf ds) ∨
    (needRegion (stepApiKey (initialConfig store) a).config = false ∧
       res = finishLoad store (stepApiKey (initialConfig store) a)
               (stepApiKey (initialConfig store) a).config false 0
               (stepApiKey (initialConfig store) a).changed wf ds) := by
  simp only [loadKey] at h
  by_cases hn : needRegion (stepApiKey (initialConfig store) a).config
  · rw [if_pos hn] at h
    left
    refine ⟨hn, ?_⟩
    cases hp : promptForEnvironment rIns with
    | none => rw [hp] at h; cases h
    | some p =>
        obtain ⟨c, rej⟩ := p
        rw [hp] at h
        exact ⟨c, rej, rfl, (Option.some_inj.mp h).symm⟩
  · rw [if_neg hn] at h
    right
    exact ⟨eq_false_of_ne_true hn, (Option.some_inj.mp h).symm⟩

/-- C2: whenever `load_key` sets endpoints, the compatible and native
endpoints are assigned together from the single region answer and equal
the literal pair for that region; the pair is a function of the answer
alone, so re-resolving with the same answer yields the identical pair. -/
theorem endpoints_set_jointly_from_region :
    (∀ (m : ConfigMap) (c : EnvChoice),
       getVal (applyRegion m c) OPENAI_COMPAT_URL_KEY = some (compatUrlFor c) ∧
       getVal (applyRegion m c) SDK_URL_KEY = some (sdkUrlFor c)) ∧
    compatUrlFor .intl = "https://dashscope-intl.aliyuncs.com/compatible-mode/v1" ∧
    sdkUrlFor .intl = "https://dashscope-intl.aliyuncs.com/api/v1" ∧
    compatUrlFor .cn = "https://dashscope.aliyuncs.com/compatible-mode/v1" ∧
    sdkUrlFor .cn = "https://dashscope.aliyuncs.com/api/v1" ∧
    (∀ (store : StoreState) (a : String) (rIns : List String) (wf ds : Bool)
       (res : LoadKeyResult) (c : EnvChoice) (rej : Nat),
       loadKey store a rIns wf ds = some res → res.promptedRegion = true →
       promptForEnvironment rIns = some (c, rej) →
       getVal res.finalConfig OPENAI_COMPAT_URL_KEY = some (compatUrlFor c) ∧
       getVal res.finalConfig SDK_URL_KEY = some (sdkUrlFor c)) := by
  refine ⟨fun m c => ⟨getVal_applyRegion_compat m c, getVal_applyRegion_sdk m c⟩,
    rfl, rfl, rfl, rfl, ?_⟩
  intro store a rIns wf ds res c rej h hpr hp
  rcases loadKey_inv store a rIns wf ds res h with
    ⟨-, c2, rej2, hp2, hres⟩ | ⟨-, hres⟩
  · rw [hp] at hp2
    injection Option.some_inj.mp hp2 with hc hrej
    subst hc
    subst hres
    rw [finishLoad_finalConfig]
    exact ⟨getVal_applyRegion_compat _ c, getVal_applyRegion_sdk _ c⟩
  · rw [hres, finishLoad_promptedRegion] at hpr
    cases hpr

/-- Witness for C2 at a concrete incomplete store and answer `n`. -/
theorem endpoints_set_jointly_from_region_witness :
    (loadKey (.parsed [(API_KEY_KEY, "sk-x")]) "" ["n"] false false).map
        (fun r => (getVal r.finalConfig OPENAI_COMPAT_URL_KEY,
          getVal r.finalConfig SDK_URL_KEY)) =
      some (some (compatUrlFor .cn), some (sdkUrlFor .cn)) := by
  cases hres : loadKey (.parsed [(API_KEY_KEY, "sk-x")]) "" ["n"] false false with
  | none => exact absurd hres (by decide)
  | some res =>
      have hpr : res.promptedRegion = true := by
        have h2 := hres ▸ (by decide :
          (loadKey (.parsed [(API_KEY_KEY, "sk-x")]) "" ["n"] false false).map
            (fun r : LoadKeyResult => r.promptedRegion) = some true)
        simpa using h2
      obtain ⟨hc, hs⟩ := endpoints_set_jointly_from_region.2.2.2.2.2
        (.parsed [(API_KEY_KEY, "sk-x")]) "" ["n"] false false res .cn 0 hres hpr
        (by decide)
      simp [hc, hs]

/-- C3: the region prompt is a function of the attempt sequence: after
stripping and lowercasing it accepts exactly `y`/`yes` (international)
and `n`/`no` (mainland), rejects anything else with a re-prompt and no
retry bound, and the attempts `"maybe", "YES"` produce the international
endpoints after exactly one rejection. -/
theorem region_prompt_accepts_exactly_yes_no :
    (∀ (s : String) (rest : List String),
       pyLower (pyStrip s) = "y" ∨ pyLower (pyStrip s) = "yes" →
       promptForEnvironment (s :: rest) = some (.intl, 0)) ∧
    (∀ (s : String) (rest : List String),
       pyLower (pyStrip s) = "n" ∨ pyLower (pyStrip s) = "no" →
       promptForEnvironment (s :: rest) = some (.cn, 0)) ∧
    (∀ (s : String) (rest : List String),
       pyLower (pyStrip s) ≠ "y" → pyLower (pyStrip s) ≠ "yes" →
       pyLower (pyStrip s) ≠ "n" → pyLower (pyStrip s) ≠ "no" →
       promptForEnvironment (s :: rest) =
         (promptForEnvironment rest).map (fun p => (p.1, p.2 + 1))) ∧
    (∀ k : Nat, promptForEnvironment (List.replicate k "maybe" ++ ["YES"]) =
       some (.intl, k)) ∧
    (loadKey (.parsed [(API_KEY_KEY, "sk-x")]) "" ["maybe", "YES"] false
        false).map
      (fun r => (r.regionRejections, getVal r.finalConfig OPENAI_COMPAT_URL_KEY,
        getVal r.finalConfig SDK_URL_KEY)) =
      some (1, some "https://dashscope-intl.aliyuncs.com/compatible-mode/v1",
        some "https://dashscope-intl.aliyuncs.com/api/v1") := by
  refine ⟨?_, ?_, ?_, ?_, by decide⟩
  · intro s rest h
    rcases h with h | h <;> simp [promptForEnvironment, h]
  · intro s rest h
    rcases h with h | h <;> simp [promptForEnvironment, h]
  · intro s rest h1 h2 h3 h4
    simp [promptForEnvironment, h1, h2, h3, h4]
  · intro k
    induction k with
    | zero => decide
    | succ k ih =>
        rw [List.replicate_succ, List.cons_append]
        show (if pyLower (pyStrip "maybe") = "y" ∨ pyLower (pyStrip "maybe") = "yes"
          then some (EnvChoice.intl, 0)
          else if pyLower (pyStrip "maybe") = "n" ∨ pyLower (pyStrip "maybe") = "no"
          then some (EnvChoice.cn, 0)
          else (promptForEnvironment (List.replicate k "maybe" ++ ["YES"])).map
            (fun p => (p.1, p.2 + 1))) = some (.intl, k + 1)
        rw [if_neg (by decide), if_neg (by decide), ih]
        rfl

/-- Witness for C3 at concrete prompt answers. -/
theorem region_prompt_accepts_exactly_yes_no_witness :
    promptForEnvironment [" Y "] = some (.intl, 0) ∧
    promptForEnvironment ["No"] = some (.cn, 0) ∧
    promptForEnvironment ["maybe", "No"] =
      (promptForEnvironment ["No"]).map (fun p => (p.1, p.2 + 1)) ∧
    promptForEnvironment (List.replicate 3 "maybe" ++ ["YES"]) = some (.intl, 3) :=
  ⟨region_prompt_accepts_exactly_yes_no.1 " Y " [] (Or.inl (by decide)),
   region_prompt_accepts_exactly_yes_no.2.1 "No" [] (Or.inr (by decide)),
   region_prompt_accepts_exactly_yes_no.2.2.1 "maybe" ["No"]
     (by decide) (by decide) (by decide) (by decide),
   region_prompt_accepts_exactly_yes_no.2.2.2.1 3⟩

theorem publish_spec_aux (store : StoreState) (ks : KeyStep) (cfg : ConfigMap)
    (pr : Bool) (rej : Nat) (ch wf ds : Bool) :
    ((finishLoad store ks cfg pr rej ch wf ds).publishedEnv.isSome = true ↔
       (hasKey cfg API_KEY_KEY = true ∧ hasKey cfg OPENAI_COMPAT_URL_KEY = true ∧
        hasKey cfg SDK_URL_KEY = true)) ∧
    ((finishLoad store ks cfg pr rej ch wf ds).warnedIncomplete = true ↔
       (finishLoad store ks cfg pr rej ch wf ds).publishedEnv = none) ∧
    ((finishLoad store ks cfg pr rej ch wf ds).publishedEnv.isSome = true →
       (finishLoad store ks cfg pr rej ch wf ds).publishedEnv =
         some (valOf cfg API_KEY_KEY, valOf cfg OPENAI_COMPAT_URL_KEY,
           valOf cfg SDK_URL_KEY) ∧
       (finishLoad store ks cfg pr rej ch wf ds).dashscopeCfg =
         (if ds then some (valOf cfg API_KEY_KEY, valOf cfg SDK_URL_KEY) else none)) ∧
    ((finishLoad store ks cfg pr rej ch wf ds).publishedEnv = none →
       (finishLoad store ks cfg pr rej ch wf ds).dashscopeCfg = none) := by
  rw [finishLoad_publishedEnv, finishLoad_dashscopeCfg, finishLoad_warnedIncomplete]
  by_cases hc : (hasKey cfg API_KEY_KEY && hasKey cfg OPENAI_COMPAT_URL_KEY &&
      hasKey cfg SDK_URL_KEY) = true
  · have hconj := hc
    rw [Bool.and_eq_true, Bool.and_eq_true] at hconj
    simp [publishStep, hc, hconj.1.1, hconj.1.2, hconj.2]
  · have hconj := hc
    rw [Bool.and_eq_true, Bool.and_eq_true] at hconj
    simp only [publishStep, hc, if_false, Bool.false_eq_true]
    constructor
    · simp only [Option.isSome_none, Bool.false_eq_true, false_iff]
      intro hcontra
      exact hconj ⟨⟨hcontra.1, hcontra.2.1⟩, hcontra.2.2⟩
    · simp

/-- C4: `load_key` publishes into the environment exactly when all
three keys are members of the final map; when publishing with the
dashscope library available it sets the pair (api key, native endpoint);
otherwise it emits the degradation warning instead of failing. -/
theorem publish_iff_all_three_present
    (store : StoreState) (a : String) (rIns : List String) (wf ds : Bool)
    (res : LoadKeyResult) (h : loadKey store a rIns wf ds = some res) :
    ((res.publishedEnv.isSome = true ↔
       (hasKey res.finalConfig API_KEY_KEY = true ∧
        hasKey res.finalConfig OPENAI_COMPAT_URL_KEY = true ∧
        hasKey res.finalConfig SDK_URL_KEY = true)) ∧
     (res.warnedIncomplete = true ↔ res.publishedEnv = none) ∧
     (res.publishedEnv.isSome = true →
        res.publishedEnv = some (valOf res.finalConfig API_KEY_KEY,
          valOf res.finalConfig OPENAI_COMPAT_URL_KEY,
          valOf res.finalConfig SDK_URL_KEY) ∧
        res.dashscopeCfg = (if ds then some (valOf res.finalConfig API_KEY_KEY,
          valOf res.finalConfig SDK_URL_KEY) else none)) ∧
     (res.publishedEnv = none → res.dashscopeCfg = none)) := by
  rcases loadKey_inv store a rIns wf ds res h with
    ⟨-, c, rej, -, hres⟩ | ⟨-, hres⟩ <;>
    · subst hres
      rw [finishLoad_finalConfig]
      exact publish_spec_aux ..

/-- Witness for C4: an empty-input run on an empty store stays
unpublished and warned. -/
theorem publish_iff_all_three_present_witness :
    (loadKey (.parsed []) "" ["y"] false true).map
        (fun r => (r.warnedIncomplete, r.publishedEnv)) = some (true, none) := by
  cases hres : loadKey (.parsed []) "" ["y"] false true with
  | none => exact absurd hres (by decide)
  | some res =>
      have hpub : res.publishedEnv = none := by
        have h2 := hres ▸ (by decide :
          (loadKey (.parsed []) "" ["y"] false true).map
            (fun r : LoadKeyResult => r.publishedEnv) = some none)
        simpa using h2
      have hw : res.warnedIncomplete = true :=
        ((publish_iff_all_three_present (.parsed []) "" ["y"] false true res
          hres).2.1).mpr hpub
      simp [hw, hpub]

theorem stepApiKey_empty_prompted (a : String) : (stepApiKey [] a).prompted = true := by
  by_cases he : pyStrip a = "" <;> simp [stepApiKey, blankVal, getVal, he]

theorem needRegion_stepApiKey_empty (a : String) :
    needRegion (stepApiKey [] a).config = true := by
  have h1 : getVal (stepApiKey [] a).config OPENAI_COMPAT_URL_KEY = none := by
    rw [stepApiKey_config_other [] a OPENAI_COMPAT_URL_KEY (by decide)]
    rfl
  simp [needRegion, blankVal, h1]

theorem loadKey_absent_eq_empty (a : String) (rIns : List String) (wf ds : Bool) :
    loadKey .absent a rIns wf ds = loadKey (.parsed []) a rIns wf ds := by
  simp only [loadKey, initialConfig]
  by_cases hn : needRegion (stepApiKey [] a).config
  · simp only [if_pos hn]
    cases hp : promptForEnvironment rIns with
    | none => rfl
    | some p => rfl
  · simp only [if_neg hn]
    rfl

theorem loadKey_malformed_eq_empty (a : String) (rIns : List String) (wf ds : Bool) :
    loadKey .malformed a rIns wf ds =
      (loadKey (.parsed []) a rIns wf ds).map
        (fun r => { r with warnedCorrupt := true }) := by
  simp only [loadKey, initialConfig]
  by_cases hn : needRegion (stepApiKey [] a).config
  · simp only [if_pos hn]
    cases hp : promptForEnvironment rIns with
    | none => rfl
    | some p => rfl
  · simp only [if_neg hn]
    rfl

theorem loadKey_malformed_prompts (a : String) (rIns : List String) (wf ds : Bool)
    (res : LoadKeyResult) (h : loadKey .malformed a rIns wf ds = some res) :
    res.warnedCorrupt = true ∧ res.promptedKey = true ∧
    res.promptedRegion = true := by
  rcases loadKey_inv .malformed a rIns wf ds res h with
    ⟨hn, c, rej, hp, hres⟩ | ⟨hn, hres⟩
  · subst hres
    exact ⟨rfl, stepApiKey_empty_prompted a, rfl⟩
  · exfalso
    have htrue : needRegion (stepApiKey (initialConfig .malformed) a).config = true :=
      needRegion_stepApiKey_empty a
    rw [htrue] at hn
    cases hn

/-- C5 counterexample: a store file that exists but cannot be read as
structured data is not always discarded with a warning: non-UTF-8 bytes
make `json.load` raise `UnicodeDecodeError`, which the
`except json.JSONDecodeError` clause does not catch, an unopenable
file raises `OSError` at `open`, and a valid-JSON non-object document
raises `AttributeError` at the first `config_data.get` — all three
propagate out of `load_key`. -/
theorem uncaught_store_errors_counterexample :
    loadKeyChecked .notUtf8 "" ["y"] false false = .error .unicodeDecodeError ∧
    loadKeyChecked .unreadable "" ["y"] false false = .error .osError ∧
    loadKeyChecked .jsonNonObject "" ["y"] false false = .error .attributeError :=
  ⟨rfl, rfl, rfl⟩

/-- C5 amended: an absent store behaves exactly like an empty parsed
store, and a store whose UTF-8 text fails JSON parsing is caught,
warned about, and treated as empty, after which resolution proceeds
with prompting; no error propagates from those paths or from a failing
write.  Only `json.JSONDecodeError` is caught, though: an unopenable
file, non-UTF-8 bytes, and a valid-JSON non-object document raise
`OSError`, `UnicodeDecodeError` and `AttributeError` respectively out
of the resolver, and those three file states are the only raising
ones. -/
theorem store_error_handling_scope :
    (∀ (a : String) (rIns : List String) (wf ds : Bool),
       loadKeyChecked .absent a rIns wf ds =
         .ok (loadKey (.parsed []) a rIns wf ds)) ∧
    (∀ (a : String) (rIns : List String) (wf ds : Bool),
       loadKeyChecked .notJson a rIns wf ds =
         .ok ((loadKey (.parsed []) a rIns wf ds).map
           (fun r => { r with warnedCorrupt := true }))) ∧
    (∀ (a : String) (rIns : List String) (wf ds : Bool) (res : LoadKeyResult),
       loadKeyChecked .notJson a rIns wf ds = .ok (some res) →
       res.warnedCorrupt = true ∧ res.promptedKey = true ∧
       res.promptedRegion = true) ∧
    (∀ (a : String) (rIns : List String) (wf ds : Bool),
       loadKeyChecked .unreadable a rIns wf ds = .error .osError ∧
       loadKeyChecked .notUtf8 a rIns wf ds = .error .unicodeDecodeError ∧
       loadKeyChecked .jsonNonObject a rIns wf ds = .error .attributeError) ∧
    (∀ (fs : FileState) (a : String) (rIns : List String) (wf ds : Bool)
       (e : PyExc), loadKeyChecked fs a rIns wf ds = .error e →
       fs = .unreadable ∨ fs = .notUtf8 ∨ fs = .jsonNonObject) := by
  refine ⟨?_, ?_, ?_, fun a rIns wf ds => ⟨rfl, rfl, rfl⟩, ?_⟩
  · intro a rIns wf ds
    show Except.ok (loadKey .absent a rIns wf ds) = _
    rw [loadKey_absent_eq_empty]
  · intro a rIns wf ds
    show Except.ok (loadKey .malformed a rIns wf ds) = _
    rw [loadKey_malformed_eq_empty]
  · intro a rIns wf ds res h
    exact loadKey_malformed_prompts a rIns wf ds res (Except.ok.inj h)
  · intro fs a rIns wf ds e h
    cases fs with
    | absent => cases h
    | unreadable => exact Or.inl rfl
    | notUtf8 => exact Or.inr (Or.inl rfl)
    | notJson => cases h
    | jsonNonObject => exact Or.inr (Or.inr rfl)
    | jsonObject m => cases h

/-- Witness for the amended C5: a concrete caught-decode-error run
warns and prompts, and a concrete non-UTF-8 store is one of the raising
file states. -/
theorem store_error_handling_scope_witness :
    (loadKey .malformed "sk-1" ["y"] false false).map
        (fun r => (r.warnedCorrupt, r.promptedKey, r.promptedRegion)) =
      some (true, true, true) ∧
    ((.notUtf8 : FileState) = .unreadable ∨ (.notUtf8 : FileState) = .notUtf8 ∨
      (.notUtf8 : FileState) = .jsonNonObject) := by
  constructor
  · cases hres : loadKey .malformed "sk-1" ["y"] false false with
    | none => exact absurd hres (by decide)
    | some res =>
        obtain ⟨h1, h2, h3⟩ := store_error_handling_scope.2.2.1 "sk-1" ["y"]
          false false res (congrArg Except.ok hres)
        simp [h1, h2, h3]
  · exact store_error_handling_scope.2.2.2.2 .notUtf8 "" [] false false
      .unicodeDecodeError rfl

theorem needRegion_of_missing (m : ConfigMap) (a : String)
    (hmiss : getVal m OPENAI_COMPAT_URL_KEY = none ∨ getVal m SDK_URL_KEY = none) :
    needRegion (stepApiKey m a).config = true := by
  rcases hmiss with hm | hm
  · have hother := stepApiKey_config_other m a OPENAI_COMPAT_URL_KEY (by decide)
    simp [needRegion, blankVal, hother, hm]
  · have hother := stepApiKey_config_other m a SDK_URL_KEY (by decide)
    simp [needRegion, blankVal, hother, hm]

/-- C6: when at least one endpoint key is absent from the store,
`load_key` runs the region prompt and regenerates both endpoints
together from the one answer (blocking if no answer is ever accepted);
with a store holding only a non-empty API key, the region prompt runs
while the key prompt is skipped. -/
theorem missing_endpoint_forces_region_reprompt :
    (∀ (m : ConfigMap) (a : String) (rIns : List String) (wf ds : Bool)
       (res : LoadKeyResult),
       (getVal m OPENAI_COMPAT_URL_KEY = none ∨ getVal m SDK_URL_KEY = none) →
       loadKey (.parsed m) a rIns wf ds = some res →
       res.promptedRegion = true ∧
       ∃ c rej, promptForEnvironment rIns = some (c, rej) ∧
         getVal res.finalConfig OPENAI_COMPAT_URL_KEY = some (compatUrlFor c) ∧
         getVal res.finalConfig SDK_URL_KEY = some (sdkUrlFor c)) ∧
    (∀ (m : ConfigMap) (a : String) (rIns : List String) (wf ds : Bool),
       (getVal m OPENAI_COMPAT_URL_KEY = none ∨ getVal m SDK_URL_KEY = none) →
       promptForEnvironment rIns = none →
       loadKey (.parsed m) a rIns wf ds = none) ∧
    (∀ (a : String) (wf ds : Bool) (res : LoadKeyResult),
       loadKey (.parsed [(API_KEY_KEY, "sk-x")]) a ["n"] wf ds = some res →
       res.promptedKey = false ∧ res.promptedRegion = true) := by
  refine ⟨?_, ?_, ?_⟩
  · intro m a rIns wf ds res hmiss h
    have hn : needRegion (stepApiKey m a).config = true := needRegion_of_missing m a hmiss
    rcases loadKey_inv (.parsed m) a rIns wf ds res h with
      ⟨-, c, rej, hp, hres⟩ | ⟨hn2, -⟩
    · subst hres
      refine ⟨rfl, c, rej, hp, ?_, ?_⟩
      · rw [finishLoad_finalConfig]
        exact getVal_applyRegion_compat _ c
      · rw [finishLoad_finalConfig]
        exact getVal_applyRegion_sdk _ c
    · exfalso
      have htrue : needRegion (stepApiKey (initialConfig (.parsed m)) a).config = true := hn
      rw [htrue] at hn2
      cases hn2
  · intro m a rIns wf ds hmiss hp
    have hn : needRegion (stepApiKey m a).config = true := needRegion_of_missing m a hmiss
    simp only [loadKey, initialConfig]
    rw [if_pos hn, hp]
  · intro a wf ds res h
    have hb : blankVal [(API_KEY_KEY, "sk-x")] API_KEY_KEY = false := by decide
    have hks : stepApiKey [(API_KEY_KEY, "sk-x")] a = ⟨[(API_KEY_KEY, "sk-x")], false, false⟩ := by
      simp [stepApiKey, hb]
    rcases loadKey_inv (.parsed [(API_KEY_KEY, "sk-x")]) a ["n"] wf ds res h with
      ⟨hn, c, rej, hp, hres⟩ | ⟨hn, hres⟩
    · subst hres
      rw [finishLoad_promptedKey]
      simp only [initialConfig]
      rw [hks]
      exact ⟨rfl, rfl⟩
    · exfalso
      simp only [initialConfig] at hn
      rw [hks] at hn
      exact absurd hn (by decide)

/-- Witness for C6: a key-only store re-prompts the region and keeps
the key prompt silent. -/
theorem missing_endpoint_forces_region_reprompt_witness :
    (loadKey (.parsed [(API_KEY_KEY, "sk-x")]) "" ["n"] false false).map
        (fun r => (r.promptedKey, r.promptedRegion)) = some (false, true) := by
  cases hres : loadKey (.parsed [(API_KEY_KEY, "sk-x")]) "" ["n"] false false with
  | none => exact absurd hres (by decide)
  | some res =>
      obtain ⟨h1, h2⟩ :=
        missing_endpoint_forces_region_reprompt.2.2 "" false false res hres
      simp [h1, h2]

theorem publishStep_warned_of_no_key (cfg : ConfigMap) (ds : Bool)
    (h : getVal cfg API_KEY_KEY = none) : (publishStep cfg ds).2.2 = true := by
  have hk : hasKey cfg API_KEY_KEY = false := by simp [hasKey, h]
  simp [publishStep, hk]

/-- C7: the masked API-key prompt fires exactly when the stored key is
absent or empty; a reply that is non-empty after stripping is stored,
an empty reply leaves the map unchanged, and resolution then continues
to the final degradation warning instead of failing. -/
theorem api_key_prompt_policy :
    (∀ (m : ConfigMap) (input : String),
       (stepApiKey m input).prompted = true ↔ (getVal m API_KEY_KEY).getD "" = "") ∧
    (∀ (m : ConfigMap) (input : String),
       (getVal m API_KEY_KEY).getD "" = "" → pyStrip input ≠ "" →
       getVal (stepApiKey m input).config API_KEY_KEY = some (pyStrip input)) ∧
    (∀ (m : ConfigMap) (input : String),
       pyStrip input = "" → (stepApiKey m input).config = m) ∧
    (∀ (m : ConfigMap) (rIns : List String) (wf ds : Bool) (res : LoadKeyResult),
       getVal m API_KEY_KEY = none →
       loadKey (.parsed m) "" rIns wf ds = some res →
       res.promptedKey = true ∧ getVal res.finalConfig API_KEY_KEY = none ∧
       res.warnedIncomplete = true) := by
  refine ⟨?_, ?_, ?_, ?_⟩
  · intro m input
    by_cases hb : blankVal m API_KEY_KEY
    · have hprop : (getVal m API_KEY_KEY).getD "" = "" := by
        simpa [blankVal] using hb
      by_cases he : pyStrip input = "" <;> simp [stepApiKey, hb, he, hprop]
    · have hprop : ¬ (getVal m API_KEY_KEY).getD "" = "" := by
        simpa [blankVal] using hb
      simp [stepApiKey, hb, hprop]
  · intro m input hm hne
    have hb : blankVal m API_KEY_KEY = true := by simp [blankVal, hm]
    simp [stepApiKey, hb, hne, getVal_setVal_same]
  · intro m input he
    by_cases hb : blankVal m API_KEY_KEY <;> simp [stepApiKey, hb, he]
  · intro m rIns wf ds res hm h
    have hb : blankVal m API_KEY_KEY = true := by simp [blankVal, hm]
    have hks : stepApiKey m "" = ⟨m, false, true⟩ := by
      simp [stepApiKey, hb, show pyStrip "" = "" from by decide]
    rcases loadKey_inv (.parsed m) "" rIns wf ds res h with
      ⟨hn, c, rej, hp, hres⟩ | ⟨hn, hres⟩ <;>
      simp only [initialConfig] at hres <;> rw [hks] at hres <;> subst hres
    · refine ⟨rfl, ?_, ?_⟩
      · rw [finishLoad_finalConfig]
        show getVal (applyRegion m c) API_KEY_KEY = none
        rw [getVal_applyRegion_other m c API_KEY_KEY (by decide) (by decide)]
        exact hm
      · rw [finishLoad_warnedIncomplete]
        apply publishStep_warned_of_no_key
        show getVal (applyRegion m c) API_KEY_KEY = none
        rw [getVal_applyRegion_other m c API_KEY_KEY (by decide) (by decide)]
        exact hm
    · refine ⟨rfl, ?_, ?_⟩
      · rw [finishLoad_finalConfig]
        exact hm
      · rw [finishLoad_warnedIncomplete]
        exact publishStep_warned_of_no_key m ds hm

/-- Witness for C7: an absent key with an empty reply stays absent and
ends in the degradation warning. -/
theorem api_key_prompt_policy_witness :
    (loadKey (.parsed [(OPENAI_COMPAT_URL_KEY,
          "https://dashscope.aliyuncs.com/compatible-mode/v1"),
        (SDK_URL_KEY, "https://dashscope.aliyuncs.com/api/v1")]) "" [] false
        false).map
      (fun r => (r.promptedKey, getVal r.finalConfig API_KEY_KEY,
        r.warnedIncomplete)) = some (true, none, true) := by
  cases hres : loadKey (.parsed [(OPENAI_COMPAT_URL_KEY,
      "https://dashscope.aliyuncs.com/compatible-mode/v1"),
      (SDK_URL_KEY, "https://dashscope.aliyuncs.com/api/v1")]) "" [] false false with
  | none => exact absurd hres (by decide)
  | some res =>
      obtain ⟨h1, h2, h3⟩ := api_key_prompt_policy.2.2.2 _ [] false false res
        (by decide) hres
      simp [h1, h2, h3]

/-- C10: pairs under keys other than the three recognized ones survive
`load_key` unchanged: the final map and any written store give them the
same value the original store did. -/
theorem unrecognized_keys_preserved
    (m : ConfigMap) (a : String) (rIns : List String) (wf ds : Bool)
    (res : LoadKeyResult) (k : String)
    (h1 : k ≠ API_KEY_KEY) (h2 : k ≠ OPENAI_COMPAT_URL_KEY) (h3 : k ≠ SDK_URL_KEY)
    (h : loadKey (.parsed m) a rIns wf ds = some res) :
    getVal res.finalConfig k = getVal m k ∧
    (∀ w, res.written = some w → getVal w k = getVal m k) := by
  rcases loadKey_inv (.parsed m) a rIns wf ds res h with
    ⟨-, c, rej, -, hres⟩ | ⟨-, hres⟩ <;>
    simp only [initialConfig] at hres <;> subst hres
  · have hfc : getVal (applyRegion (stepApiKey m a).config c) k = getVal m k := by
      rw [getVal_applyRegion_other _ _ _ h2 h3, stepApiKey_config_other _ _ _ h1]
    refine ⟨by rw [finishLoad_finalConfig]; exact hfc, ?_⟩
    intro w hw
    rw [finishLoad_written] at hw
    by_cases hwf : wf
    · rw [if_neg (by simp [hwf])] at hw
      cases hw
    · rw [if_pos (by simp [hwf])] at hw
      rw [← Option.some_inj.mp hw]
      exact hfc
  · have hfc : getVal (stepApiKey m a).config k = getVal m k :=
      stepApiKey_config_other _ _ _ h1
    refine ⟨by rw [finishLoad_finalConfig]; exact hfc, ?_⟩
    intro w hw
    rw [finishLoad_written] at hw
    by_cases hcw : ((stepApiKey m a).changed && !wf) = true
    · rw [if_pos hcw] at hw
      rw [← Option.some_inj.mp hw]
      exact hfc
    · rw [if_neg hcw] at hw
      cases hw

/-- Witness for C10: a stray pair survives a run that rewrites both
endpoints and the key, in the final map and in the written store. -/
theorem unrecognized_keys_preserved_witness :
    (loadKey (.parsed [("OTHER", "v")]) "sk-9" ["y"] false false).map
        (fun r => (getVal r.finalConfig "OTHER",
          r.written.map (fun w => getVal w "OTHER"))) =
      some (some "v", some (some "v")) := by
  cases hres : loadKey (.parsed [("OTHER", "v")]) "sk-9" ["y"] false false with
  | none => exact absurd hres (by decide)
  | some res =>
      obtain ⟨hfc, hw⟩ := unrecognized_keys_preserved [("OTHER", "v")] "sk-9"
        ["y"] false false res "OTHER" (by decide) (by decide) (by decide) hres
      obtain ⟨w, hweq⟩ := Option.isSome_iff_exists.mp (by
        have h2 := hres ▸ (by decide :
          (loadKey (.parsed [("OTHER", "v")]) "sk-9" ["y"] false false).map
            (fun r : LoadKeyResult => r.written.isSome) = some true)
        simpa using h2)
      have hwv : getVal w "OTHER" = some "v" := by
        rw [hw w hweq]
        decide
      have hfcv : getVal res.finalConfig "OTHER" = some "v" := by
        rw [hfc]
        decide
      simp [hfcv, hweq, hwv]

/-- C9: the environment name is inferred by ordered substring checks on
the compatible endpoint: containing `intl` wins, else containing the
provider domain gives Mainland China, else Unknown (also when unset);
the order matters because the international URL contains the domain
too. -/
theorem env_name_ordered_substring_checks :
    (∀ u : String, containsStr u "intl" = true →
       envNameOf (some u) = "International") ∧
    (∀ u : String, containsStr u "intl" = false →
       containsStr u "aliyuncs.com" = true →
       envNameOf (some u) = "Mainland China") ∧
    (∀ u : String, containsStr u "intl" = false →
       containsStr u "aliyuncs.com" = false →
       envNameOf (some u) = "Unknown") ∧
    envNameOf none = "Unknown" ∧
    (containsStr "https://dashscope-intl.aliyuncs.com/compatible-mode/v1"
        "aliyuncs.com" = true ∧
     envNameOf (some "https://dashscope-intl.aliyuncs.com/compatible-mode/v1") =
       "International") ∧
    envNameOf (some "https://dashscope.aliyuncs.com/compatible-mode/v1") =
      "Mainland China" := by
  refine ⟨?_, ?_, ?_, by decide, by decide, by decide⟩
  · intro u h
    simp [envNameOf, h]
  · intro u h1 h2
    simp [envNameOf, h1, h2]
  · intro u h1 h2
    simp [envNameOf, h1, h2]

/-- Witness for C9 at the two literal endpoints and the unset default. -/
theorem env_name_ordered_substring_checks_witness :
    envNameOf (some "https://dashscope-intl.aliyuncs.com/compatible-mode/v1") =
      "International" ∧
    envNameOf (some "https://dashscope.aliyuncs.com/compatible-mode/v1") =
      "Mainland China" ∧
    envNameOf (some "Not Set") = "Unknown" :=
  ⟨env_name_ordered_substring_checks.1 _ (by decide),
   env_name_ordered_substring_checks.2.1 _ (by decide) (by decide),
   env_name_ordered_substring_checks.2.2.1 "Not Set" (by decide) (by decide)⟩

/-- C8 counterexample: the present key `Not Set` has length at most 8
yet masks to `Not Set` rather than `Valid`, and that output is the full
key; moreover the length-11 key `abcd...wxyz` masks to itself, so the
full key value can appear in the output. -/
theorem mask_short_key_counterexample :
    ("Not Set").length ≤ 8 ∧ maskKey (some "Not Set") = "Not Set" ∧
    maskKey (some "Not Set") ≠ "Valid" ∧
    maskKey (some "abcd...wxyz") = "abcd...wxyz" := by decide

/-- C8 amended: a present key of length over 8 masks to its first 4
characters, an ellipsis, and its last 4; a present key of length at
most 8 masks to `Valid` unless it is exactly the sentinel `Not Set`,
which is indistinguishable from an absent variable and masks to
`Not Set`; an absent key masks to `Not Set`; the mask is built only
from the first and last 4 characters of the key but can coincide with
the full key value. -/
theorem mask_key_rules :
    (∀ k : String, k.length > 8 →
       maskKey (some k) = k.take 4 ++ "..." ++ k.takeRight 4) ∧
    (∀ k : String, k.length ≤ 8 → k ≠ "Not Set" → maskKey (some k) = "Valid") ∧
    maskKey (some "Not Set") = "Not Set" ∧
    maskKey none = "Not Set" ∧
    maskKey (some "abcdefghij") = "abcd...ghij" := by
  refine ⟨?_, ?_, by decide, by decide, by decide⟩
  · intro k hk
    have hne : k ≠ "Not Set" := by
      intro he
      rw [he] at hk
      exact absurd hk (by decide)
    simp [maskKey, hk, hne]
  · intro k hk hne
    have hgt : ¬ (k.length > 8 ∧ k ≠ "Not Set") := fun hc => absurd hc.1 (by omega)
    simp only [maskKey, Option.getD_some]
    rw [if_neg hgt, if_pos hne]

/-- Witness for the amended C8 at a long and a short key. -/
theorem mask_key_rules_witness :
    maskKey (some "abcdefghijkl") =
      "abcdefghijkl".take 4 ++ "..." ++ "abcdefghijkl".takeRight 4 ∧
    maskKey (some "sk-1") = "Valid" :=
  ⟨mask_key_rules.1 "abcdefghijkl" (by decide),
   mask_key_rules.2.1 "sk-1" (by decide) (by decide)⟩
